import Mathlib

/-!
Shallow embedding of src/orchestrator.py (Python Remote Infra Orchestrator).

External effects — the paramiko SSH calls, the requests HTTP calls, the
DISCORD_WEBHOOK environment variable, the file system and the YAML/JSON
parsers — are modelled as oracle fields of an `Env` record: each oracle gives
the outcome the corresponding external call would have.  Python exceptions
are modelled with `Except`: a function that can let an exception escape
returns `Except PyErr _`, and a raised exception propagates to the caller
exactly where the Python code would let it propagate.  Python dictionaries
holding the configuration are modelled as records of `Option` fields (a
`none` field is an absent key, so a `dict[key]` access on it raises a
`KeyError` while `dict.get(key, default)` yields the default).
-/

deriving instance DecidableEq for Except

namespace Orchestrator

/-- A Python exception, as observable by this program: a `KeyError` from a
dictionary access, a paramiko/socket error from an SSH call, and the errors
that can escape `load_config` (missing file, parse error, or the explicit
`ValueError` for an unsupported extension). -/
inductive PyErr where
  | keyError (key : String)
  | sshError (msg : String)
  | fileNotFound (path : String)
  | valueError (msg : String)
  | parseError (msg : String)
  deriving DecidableEq

/-- The ConfigError category of the spec (§7): unreadable file, unparsable
content, or unsupported format — the errors `load_config` can raise. -/
def PyErr.isConfigError : PyErr → Bool
  | .fileNotFound _ => true
  | .valueError _ => true
  | .parseError _ => true
  | _ => false

/-- The `health_check` dictionary of the config entry of a server.  Every field is
optional because a dictionary key may be absent. -/
structure HCDict where
  type? : Option String
  url? : Option String
  timeout? : Option Nat
  expected_status? : Option Nat
  contains? : Option String
  command? : Option String
  expect_stdout_regex? : Option String
  deriving DecidableEq

/-- One server entry of the config.  `name` and `host` are the two fields the
spec marks as required; connection details (`port`, `username`,
`private_key`) are consumed only by the SSH oracle and are therefore not
carried here. -/
structure ServerDict where
  name : String
  host : String
  service? : Option String
  restart_command? : Option String
  health_check? : Option HCDict
  deriving DecidableEq

/-- The top-level config document: `log_file` and `servers`, both read with
`.get` (so both optional). -/
structure Config where
  log_file? : Option String
  servers? : Option (List ServerDict)
  deriving DecidableEq

/-- Outcome of the external paramiko interaction inside one `run_ssh` call:
`connectFail` — `client.connect` raises (connection/auth failure or connect
timeout), so no session is established; `execFail` — a call made after the
session is established raises (`exec_command`, `recv_exit_status`, or a
`read` hitting the command timeout); `ok` — everything succeeds with an exit
code and the captured, decoded, stripped stdout/stderr. -/
inductive SshOutcome where
  | connectFail (msg : String)
  | execFail (msg : String)
  | ok (exit_code : Int) (out : String) (err : String)
  deriving DecidableEq

/-- Observable state of the SSH session when `run_ssh` returns or raises:
whether `client.connect` succeeded, and whether `client.close()` ran. -/
structure SessionState where
  connected : Bool
  closed : Bool
  deriving DecidableEq

/-- The oracles for everything outside the program: `httpGet url timeout`
models `requests.get` (status code and body text, or the message of the raised
exception); `ssh server command` models the paramiko interaction of one
`run_ssh` call; `reSearch pattern s` models the truthiness of
`re.search(pattern, s)`; `webhook?` models `os.getenv("DISCORD_WEBHOOK")`;
`post url body` models `requests.post` (response status, or the message of
the raised exception); `readFile`, `yamlParse`, `jsonParse` model `open`,
`yaml.safe_load` and `json.load`. -/
structure Env where
  httpGet : String → Nat → Except String (Nat × String)
  ssh : ServerDict → String → SshOutcome
  reSearch : String → String → Bool
  webhook? : Option String
  post : String → String → Except String Nat
  readFile : String → Option String
  yamlParse : String → Except String Config
  jsonParse : String → Except String Config

/-- The Python substring test `needle in haystack` on the underlying
character lists: true iff `needle` occurs as a contiguous run. -/
def isSubstringList (needle : List Char) : List Char → Bool
  | [] => needle == []
  | c :: rest => needle.isPrefixOf (c :: rest) || isSubstringList needle rest

/-- The Python substring test `needle in haystack` on strings (literal
substring, not a regex). -/
def strIn (needle haystack : String) : Bool :=
  isSubstringList needle.toList haystack.toList

/-- Modelled from the spec: the truthiness of the Python standard-library
call `re.search(pattern, s)` — `re` is library code, not part of src/ —
restricted to patterns built from an optional leading `^` anchor, literal
characters, and an optional trailing `$` anchor.  The spec (§4.2) fixes
search-anywhere semantics: without anchors the literal may occur anywhere in
`s`; `^` pins the match to the start, `$` to the end. -/
def pySearch (pat s : String) : Bool :=
  let cs := pat.toList
  let startAnchored := cs.head? == some (Char.ofNat 94)
  let cs1 := if startAnchored then cs.tail else cs
  let endAnchored := cs1.getLast? == some (Char.ofNat 36)
  let core := if endAnchored then cs1.dropLast else cs1
  let sl := s.toList
  if startAnchored && endAnchored then core == sl
  else if startAnchored then core.isPrefixOf sl
  else if endAnchored then core.isSuffixOf sl
  else isSubstringList core sl

/-- Python string interpolation of a value that may be `None`:
`str(None)` is the four-character string "None". -/
def pyStrOpt : Option String → String
  | none => "None"
  | some s => s

/-- str() of a Python `KeyError`: the repr of the missing key, i.e. the key
wrapped in single quotes (char 39). -/
def keyErrorStr (key : String) : String :=
  String.mk (Char.ofNat 39 :: (key.toList ++ [Char.ofNat 39]))

/-- The final component of a path: the part after the last "/". -/
def lastComponent (p : String) : String :=
  String.mk ((p.toList.reverse.takeWhile (fun c => c != '/')).reverse)

/-- `pathlib.PurePath(p).suffix`, as used by `load_config`: the extension of
the final component including its dot, where the dot must be neither the
first nor the last character of the component; otherwise the empty string. -/
def pathSuffix (p : String) : String :=
  let cs := (lastComponent p).toList
  match cs.reverse.findIdx? (fun c => c == '.') with
  | none => ""
  | some j =>
    let i := cs.length - 1 - j
    if 0 < i && i < cs.length - 1 then String.mk (cs.drop i) else ""

/-- src/orchestrator.py lines 60-76, `run_ssh`.  The straight-line Python
has no try/finally and no `with` block: `client.close()` is line 75, after
`connect`, `exec_command`, `recv_exit_status` and both `read`s.  The first
component is the returned `(exit_code, out, err)` triple or the escaping
exception; the second tracks whether the session was established and whether
`close()` ran before control left the function. -/
def run_ssh (outcome : SshOutcome) : Except PyErr (Int × String × String) × SessionState :=
  match outcome with
  | .connectFail msg =>
    -- client.connect raises: the exception escapes; close() is never reached.
    (.error (.sshError msg), ⟨false, false⟩)
  | .execFail msg =>
    -- exec_command / recv_exit_status / read raises after a successful
    -- connect: the exception escapes and close() on line 75 is skipped.
    (.error (.sshError msg), ⟨true, false⟩)
  | .ok code out err =>
    -- success: close() runs, then the triple is returned.
    (.ok (code, out, err), ⟨true, true⟩)

/-- src/orchestrator.py lines 81-102, `health_check`.  `server["health_check"]`
and `hc["type"]` are bare dictionary accesses, so an absent key raises a
`KeyError`.  The whole `http` branch sits inside a try/except that catches
every exception; the `remote_cmd` branch has no try/except, so whatever
`run_ssh` raises propagates to the caller. -/
def health_check (env : Env) (s : ServerDict) : Except PyErr (Bool × String) :=
  match s.health_check? with
  | none => .error (.keyError "health_check")
  | some hc =>
  match hc.type? with
  | none => .error (.keyError "type")
  | some hcType =>
  if hcType == "http" then
    -- try: everything below is caught by `except Exception`.
    .ok (match hc.url? with
      | none =>
        -- hc["url"] raises KeyError inside the try; str(e) is the quoted key.
        (false, "HTTP error: " ++ keyErrorStr "url")
      | some url =>
        match env.httpGet url (hc.timeout?.getD 5) with
        | .error cause => (false, "HTTP error: " ++ cause)
        | .ok (status, body) =>
          let ok := status == hc.expected_status?.getD 200
          let ok := match hc.contains? with
            | some c => ok && strIn c body
            | none => ok
          (ok, "HTTP " ++ toString status))
  else if hcType == "remote_cmd" then
    match hc.command? with
    | none => .error (.keyError "command")
    | some cmd =>
      match (run_ssh (env.ssh s cmd)).1 with
      | .error e => .error e
      | .ok (code, out, err) =>
        let ok := code == 0
        let ok := match hc.expect_stdout_regex? with
          | some pat => ok && env.reSearch pat out
          | none => ok
        .ok (ok, "exit=" ++ toString code ++ ", out=" ++ out ++ ", err=" ++ err)
  else
    .ok (false, "Unknown health_check type")

/-- src/orchestrator.py lines 106-108: the restart command that
`restart_service` resolves.  `server.get("service")` yields `None` for an
absent key, and Python interpolates `None` as the string "None" into the
default f-string of `server.get("restart_command", ...)`. -/
def restart_command_of (server : ServerDict) : String :=
  server.restart_command?.getD ("sudo systemctl restart " ++ pyStrOpt server.service?)

/-- src/orchestrator.py lines 106-109, `restart_service`: resolve the restart
command, then delegate to `run_ssh` against the same server. -/
def restart_service (env : Env) (server : ServerDict) :
    Except PyErr (Int × String × String) × SessionState :=
  run_ssh (env.ssh server (restart_command_of server))

/-- The body of the try block in `notify_discord`: `requests.post` (which may
raise) followed by `resp.raise_for_status()`, which raises exactly for a
status in [400, 600). -/
def notify_try_body (postResult : Except String Nat) : Except String Nat :=
  match postResult with
  | .error e => .error e
  | .ok status =>
    if 400 ≤ status && status < 600 then .error ("HTTP " ++ toString status)
    else .ok status

/-- src/orchestrator.py lines 113-124, `notify_discord`.  The returned `Nat`
counts the network calls made (0 or 1).  `if not webhook` skips when the
environment variable is unset (`None`) or the empty string; otherwise the
try/except catches every exception from the post and from
`raise_for_status`, logging and discarding it. -/
def notify_discord (env : Env) (message : String) : Except PyErr Nat :=
  match env.webhook? with
  | none =>
    -- logging.error "DISCORD_WEBHOOK not set. Skipping notification."
    .ok 0
  | some webhook =>
    if webhook == "" then .ok 0
    else
      match notify_try_body (env.post webhook message) with
      | .ok _ => .ok 1      -- logging.info "Notification sent to Discord."
      | .error _ => .ok 1   -- caught: logging.error "Discord notification failed"

/-- The observable effects of processing one server inside the loop of
`run_orchestrator`: how many `health_check`, `restart_service` and
`notify_discord` calls were entered, and the exception (if any) that escaped
and aborted the loop. -/
structure StepEffects where
  evals : Nat
  remediations : Nat
  notifications : Nat
  err? : Option PyErr
  deriving DecidableEq

/-- Totals of one pass of the control loop. -/
structure PassStats where
  evals : Nat
  remediations : Nat
  notifications : Nat
  deriving DecidableEq

/-- src/orchestrator.py lines 135-150: the body of the `for s in servers`
loop for one server.  `health_check` is always entered; on a healthy verdict
the loop `continue`s; on an unhealthy verdict `restart_service` runs and
then `notify_discord` is invoked unconditionally.  An exception escaping
`health_check` or `restart_service` is recorded in `err?` (it would abort
the whole loop). -/
def process_server (env : Env) (s : ServerDict) : StepEffects :=
  match health_check env s with
  | .error e => ⟨1, 0, 0, some e⟩
  | .ok (true, _detail) => ⟨1, 0, 0, none⟩
  | .ok (false, detail) =>
    match (restart_service env s).1 with
    | .error e => ⟨1, 1, 0, some e⟩
    | .ok (code, out, err) =>
      let ok := code == 0
      let msg := "Restart " ++ (if ok then "OK" else "FAILED") ++ ": exit=" ++
        toString code ++ ", out=" ++ out ++ ", err=" ++ err
      match notify_discord env ("⚠️ " ++ s.name ++ " unhealthy\n" ++ detail ++ "\n" ++ msg) with
      | .error e => ⟨1, 1, 1, some e⟩
      | .ok _ => ⟨1, 1, 1, none⟩

/-- src/orchestrator.py lines 135-150: the `for s in servers` loop.  Servers
are processed strictly sequentially; an exception escaping the processing of one server
 aborts the loop, so the remaining servers are not touched. -/
def run_pass (env : Env) : List ServerDict → PassStats × Option PyErr
  | [] => (⟨0, 0, 0⟩, none)
  | s :: rest =>
    let eff := process_server env s
    match eff.err? with
    | some e => (⟨eff.evals, eff.remediations, eff.notifications⟩, some e)
    | none =>
      let r := run_pass env rest
      (⟨eff.evals + r.1.evals, eff.remediations + r.1.remediations,
        eff.notifications + r.1.notifications⟩, r.2)

/-- src/orchestrator.py lines 29-37, `load_config`: open the file (raising if
it cannot be read), then dispatch on `Path(path).suffix` — `.yaml`/`.yml` to
the YAML parser, `.json` to the JSON parser, anything else raises
`ValueError("Unsupported config format. Use .yaml, .yml or .json")`. -/
def load_config (env : Env) (path : String) : Except PyErr Config :=
  match env.readFile path with
  | none => .error (.fileNotFound path)
  | some content =>
    if pathSuffix path == ".yaml" || pathSuffix path == ".yml" then
      match env.yamlParse content with
      | .ok cfg => .ok cfg
      | .error e => .error (.parseError e)
    else if pathSuffix path == ".json" then
      match env.jsonParse content with
      | .ok cfg => .ok cfg
      | .error e => .error (.parseError e)
    else
      .error (.valueError "Unsupported config format. Use .yaml, .yml or .json")

/-- src/orchestrator.py lines 128-150, `run_orchestrator`: load the config —
a failure there escapes before any server is touched — then run the pass
over `cfg.get("servers", [])`.  The result pairs the pass totals with the
exception (if any) that ended the run. -/
def run_orchestrator (env : Env) (config_file : String) : PassStats × Option PyErr :=
  match load_config env config_file with
  | .error e => (⟨0, 0, 0⟩, some e)
  | .ok cfg => run_pass env (cfg.servers?.getD [])

/-- Builds an environment from the oracles the concrete scenarios below vary
(HTTP responses, SSH outcomes, webhook variable, file system); the regex
oracle is always the modelled `pySearch`, the webhook post succeeds with 204,
and the parsers are unused unless a scenario overrides the file system. -/
def mkEnv (g : String → Nat → Except String (Nat × String))
    (sh : ServerDict → String → SshOutcome)
    (w : Option String) (rf : String → Option String) : Env :=
  ⟨g, sh, pySearch, w, fun _ _ => .ok 204, rf,
   fun _ => .ok ⟨none, some []⟩, fun _ => .ok ⟨none, some []⟩⟩

/-- An environment in which nothing external is reachable. -/
def envTriv : Env :=
  mkEnv (fun _ _ => .error "unreachable") (fun _ _ => .ok 0 "" "") none (fun _ => none)

/-- An HTTP health check with `contains: "ready"` and everything else
defaulted (the scenario of the test case in §8 of the spec). -/
def hcHttpReady : HCDict := ⟨some "http", some "http://app/health", none, none, some "ready", none, none⟩

/-- Server with the `contains: "ready"` HTTP check. -/
def sC2 : ServerDict := ⟨"web", "10.0.0.2", none, none, some hcHttpReady⟩

/-- HTTP responds 200 with body "not ready yet". -/
def envC2 : Env :=
  mkEnv (fun _ _ => .ok (200, "not ready yet")) (fun _ _ => .ok 0 "" "") none (fun _ => none)

/-- HTTP responds 200 with body "still starting" (no occurrence of "ready"). -/
def envC2b : Env :=
  mkEnv (fun _ _ => .ok (200, "still starting")) (fun _ _ => .ok 0 "" "") none (fun _ => none)

/-- A remote_cmd health check with no stdout pattern. -/
def hcRemote : HCDict := ⟨some "remote_cmd", none, none, none, none, some "systemctl is-active nginx", none⟩

/-- Server with the remote_cmd health check. -/
def sC1 : ServerDict := ⟨"db", "10.0.0.3", none, none, some hcRemote⟩

/-- Every SSH connect fails (connection timeout). -/
def envC1 : Env :=
  mkEnv (fun _ _ => .ok (200, "")) (fun _ _ => .connectFail "Connection timed out") none (fun _ => none)

/-- A plain HTTP health check: url only, everything else defaulted. -/
def hc6 : HCDict := ⟨some "http", some "http://svc/health", none, none, none, none, none⟩

/-- Server with the plain HTTP check. -/
def s6 : ServerDict := ⟨"svc", "10.0.0.6", none, none, some hc6⟩

/-- HTTP responds 200 with body "service ok". -/
def env6 : Env :=
  mkEnv (fun _ _ => .ok (200, "service ok")) (fun _ _ => .ok 0 "" "") none (fun _ => none)

/-- A remote_cmd check expecting stdout to match the anchored pattern. -/
def hc7 : HCDict := ⟨some "remote_cmd", none, none, none, none, some "health.sh", some "^OK$"⟩

/-- Server with the pattern-bearing remote_cmd check. -/
def s7 : ServerDict := ⟨"app", "10.0.0.7", none, none, some hc7⟩

/-- SSH succeeds with exit code 0 and stdout "FAIL". -/
def env7 : Env :=
  mkEnv (fun _ _ => .ok (200, "")) (fun _ _ => .ok 0 "FAIL" "") none (fun _ => none)

/-- SSH succeeds with exit code 0 and stdout "OK". -/
def env7b : Env :=
  mkEnv (fun _ _ => .ok (200, "")) (fun _ _ => .ok 0 "OK" "") none (fun _ => none)

/-- A health_check dictionary with no "type" key at all. -/
def hcNoType : HCDict := ⟨none, none, none, none, none, none, none⟩

/-- Server whose health_check dictionary is missing the "type" key. -/
def s8bad : ServerDict := ⟨"misconfigured", "10.0.0.8", none, none, some hcNoType⟩

/-- A health_check dictionary with the unrecognized type "tcp". -/
def hcTcp : HCDict := ⟨some "tcp", none, none, none, none, none, none⟩

/-- Server with the unrecognized check type. -/
def s8tcp : ServerDict := ⟨"legacy", "10.0.0.9", none, none, some hcTcp⟩

/-- Server with an explicit restart_command. -/
def s5a : ServerDict := ⟨"a", "10.0.1.1", some "nginx", some "svc restart nginx", some hc6⟩

/-- Server with a service but no restart_command. -/
def s5b : ServerDict := ⟨"b", "10.0.1.2", some "nginx", none, some hc6⟩

/-- Server with neither restart_command nor service. -/
def s5c : ServerDict := ⟨"c", "10.0.1.3", none, none, some hc6⟩

/-- HTTP check against the endpoint of server a. -/
def hc3a : HCDict := ⟨some "http", some "http://a/health", none, none, none, none, none⟩

/-- HTTP check against the endpoint of server b. -/
def hc3b : HCDict := ⟨some "http", some "http://b/health", none, none, none, none, none⟩

/-- First control-loop server (will be healthy). -/
def s3a : ServerDict := ⟨"a", "10.0.2.1", some "a", none, some hc3a⟩

/-- Second control-loop server (will be unhealthy). -/
def s3b : ServerDict := ⟨"b", "10.0.2.2", some "b", none, some hc3b⟩

/-- A two-server fleet: one healthy, one unhealthy. -/
def servers3 : List ServerDict := [s3a, s3b]

/-- The endpoint of server a answers 200, every other endpoint 500; restarts
succeed; the webhook is configured. -/
def env3 : Env :=
  mkEnv (fun url _ => if url == "http://a/health" then .ok (200, "up") else .ok (500, "down"))
    (fun _ _ => .ok 0 "" "") (some "https://discord.example/hook") (fun _ => none)

/-- A two-server fleet whose first server uses a remote_cmd check. -/
def servers3bad : List ServerDict := [sC1, s3a]

/-- Every endpoint answers 200, but every SSH connect fails. -/
def env3bad : Env :=
  mkEnv (fun _ _ => .ok (200, "up")) (fun _ _ => .connectFail "No route to host") none (fun _ => none)

/-- A file system holding one readable file at every path. -/
def env10 : Env :=
  mkEnv (fun _ _ => .error "unreachable") (fun _ _ => .ok 0 "" "") none (fun _ => some "servers: []")

/-! ## Helper lemmas -/

/-- `notify_discord` never returns an error: every exception of its try
block is caught. -/
theorem notify_discord_ne_error (env : Env) (msg : String) (e : PyErr) :
    notify_discord env msg ≠ Except.error e := by
  unfold notify_discord
  cases env.webhook? with
  | none => exact fun h => by cases h
  | some w =>
    by_cases hw : (w == "") = true
    · simp [hw]
    · simp only [hw]
      cases notify_try_body (env.post w msg) <;> simp

/-- `health_check` is entered exactly once per processed server. -/
theorem process_server_evals (env : Env) (s : ServerDict) :
    (process_server env s).evals = 1 := by
  unfold process_server
  split <;> try rfl
  split <;> try rfl
  dsimp only
  split <;> rfl

/-- A healthy verdict short-circuits the loop body: no remediation, no
notification, no escaping exception. -/
theorem process_server_healthy (env : Env) (s : ServerDict) (d : String)
    (h : health_check env s = Except.ok (true, d)) :
    process_server env s = ⟨1, 0, 0, none⟩ := by
  unfold process_server
  rw [h]

/-- On an unhealthy verdict, either the restart raises (one remediation, no
notification, the exception escapes) or the body completes with exactly one
remediation and one notification. -/
theorem process_server_unhealthy_cases (env : Env) (s : ServerDict) (d : String)
    (h : health_check env s = Except.ok (false, d)) :
    (∃ e, (restart_service env s).1 = Except.error e ∧
      process_server env s = ⟨1, 1, 0, some e⟩) ∨
    process_server env s = ⟨1, 1, 1, none⟩ := by
  unfold process_server
  rw [h]
  rcases hr : (restart_service env s).1 with e | ⟨code, out, err2⟩
  · exact Or.inl ⟨e, rfl, rfl⟩
  · right
    dsimp only
    split
    · rename_i e3 heq
      exact absurd heq (notify_discord_ne_error env _ e3)
    · rfl

/-- When no processing step raises, the pass evaluates every server exactly
once and completes. -/
theorem run_pass_all_ok (env : Env) :
    ∀ servers : List ServerDict,
    (∀ s ∈ servers, (process_server env s).err? = none) →
    (run_pass env servers).1.evals = servers.length ∧
    (run_pass env servers).2 = none := by
  intro servers
  induction servers with
  | nil => exact fun _ => ⟨rfl, rfl⟩
  | cons s rest ih =>
    intro h
    have hs : (process_server env s).err? = none := h s (List.mem_cons_self s rest)
    have hr := ih (fun x hx => h x (List.mem_cons_of_mem s hx))
    simp only [run_pass]
    rw [hs]
    refine ⟨?_, hr.2⟩
    simp [process_server_evals, hr.1, Nat.add_comm]

/-! ## The claims -/

/-- C1 (amended): the health evaluation never raises only outside the
remote_cmd path.  For a check whose type is present and is not "remote_cmd"
(the http branch with its catch-all try/except, and the unknown-type
fallthrough) every failure is converted into a verdict; a remote_cmd check
returns a verdict only when the remote execution itself returns, while a
raising remote execution (connection/auth failure, timeout) propagates out
of health_check uncaught. -/
theorem C1_never_raises_amended :
    (∀ (env : Env) (s : ServerDict) (hc : HCDict) (t : String),
      s.health_check? = some hc → hc.type? = some t → t ≠ "remote_cmd" →
      ∃ v, health_check env s = Except.ok v) ∧
    (∀ (env : Env) (s : ServerDict) (hc : HCDict) (cmd : String)
      (code : Int) (out err2 : String),
      s.health_check? = some hc → hc.type? = some "remote_cmd" →
      hc.command? = some cmd → env.ssh s cmd = SshOutcome.ok code out err2 →
      ∃ v, health_check env s = Except.ok v) := by
  constructor
  · intro env s hc t hhc ht hnot
    unfold health_check
    simp only [hhc, ht]
    by_cases hh : t = "http"
    · subst hh
      simp
    · have h1 : (t == "http") = false := by simp [hh]
      have h2 : (t == "remote_cmd") = false := by simp [hnot]
      simp [h1, h2]
  · intro env s hc cmd code out err2 hhc ht hcmd hssh
    unfold health_check
    cases hreg : hc.expect_stdout_regex? <;>
      simp [hhc, ht, hcmd, hssh, hreg, run_ssh]

/-- C1 witness: a concrete http check evaluates to a verdict without
raising. -/
theorem C1_witness :
    s6.health_check? = some hc6 ∧ hc6.type? = some "http" ∧
    ∃ v, health_check env6 s6 = Except.ok v :=
  ⟨rfl, rfl, C1_never_raises_amended.1 env6 s6 hc6 "http" rfl rfl (by decide)⟩

/-- C1 counterexample: a remote_cmd health check whose SSH connect fails
does raise — health_check returns the propagated connection error instead of
a healthy=false verdict, refuting "never raises". -/
theorem C1_counterexample :
    sC1.health_check? = some hcRemote ∧ hcRemote.type? = some "remote_cmd" ∧
    health_check envC1 sC1 = Except.error (PyErr.sshError "Connection timed out") :=
  ⟨rfl, rfl, by decide⟩

/-- C2 counterexample: with contains="ready", a matching status 200, and
body "not ready yet", the verdict is healthy=TRUE — "ready" occurs as a
literal substring of "not ready yet" — contradicting the claimed
healthy=false. -/
theorem C2_counterexample :
    hcHttpReady.contains? = some "ready" ∧
    envC2.httpGet "http://app/health" 5 = Except.ok (200, "not ready yet") ∧
    health_check envC2 sC2 = Except.ok (true, "HTTP 200") :=
  ⟨rfl, rfl, by decide⟩

/-- C2 (amended): the contains test is a literal substring test, so body
"not ready yet" (which contains "ready") yields healthy=true, and a body not
containing "ready", such as "still starting", yields healthy=false. -/
theorem C2_contains_is_substring :
    strIn "ready" "not ready yet" = true ∧
    health_check envC2 sC2 = Except.ok (true, "HTTP 200") ∧
    strIn "ready" "still starting" = false ∧
    health_check envC2b sC2 = Except.ok (false, "HTTP 200") := by
  refine ⟨by decide, by decide, by decide, by decide⟩

/-- C3 (amended): provided no processing step raises an escaping exception,
one pass makes exactly N health evaluations for N servers, completes, makes
zero remediation and zero notification calls for a server with a healthy
verdict, and exactly one remediation and one notification call for a server
with an unhealthy verdict. -/
theorem C3_loop_counts (env : Env) (servers : List ServerDict)
    (hok : ∀ s ∈ servers, (process_server env s).err? = none) :
    (run_pass env servers).1.evals = servers.length ∧
    (run_pass env servers).2 = none ∧
    (∀ s ∈ servers, (process_server env s).evals = 1) ∧
    (∀ s ∈ servers, ∀ d, health_check env s = Except.ok (true, d) →
      process_server env s = ⟨1, 0, 0, none⟩) ∧
    (∀ s ∈ servers, ∀ d, health_check env s = Except.ok (false, d) →
      process_server env s = ⟨1, 1, 1, none⟩) := by
  obtain ⟨h1, h2⟩ := run_pass_all_ok env servers hok
  refine ⟨h1, h2, fun s _ => process_server_evals env s,
    fun s _ d hd => process_server_healthy env s d hd,
    fun s hs d hd => ?_⟩
  rcases process_server_unhealthy_cases env s d hd with ⟨e, _, hpe⟩ | hpe
  · have hne := hok s hs
    rw [hpe] at hne
    simp at hne
  · exact hpe

/-- C3 witness: a concrete two-server fleet (one healthy, one unhealthy)
satisfies the no-raise hypothesis and the counted behaviour. -/
theorem C3_witness :
    (∀ s ∈ servers3, (process_server env3 s).err? = none) ∧
    ((run_pass env3 servers3).1.evals = servers3.length ∧
     (run_pass env3 servers3).2 = none ∧
     (∀ s ∈ servers3, (process_server env3 s).evals = 1) ∧
     (∀ s ∈ servers3, ∀ d, health_check env3 s = Except.ok (true, d) →
       process_server env3 s = ⟨1, 0, 0, none⟩) ∧
     (∀ s ∈ servers3, ∀ d, health_check env3 s = Except.ok (false, d) →
       process_server env3 s = ⟨1, 1, 1, none⟩)) :=
  ⟨by decide, C3_loop_counts env3 servers3 (by decide)⟩

/-- C3 counterexample: in a two-server list whose first server uses a
remote_cmd check and whose SSH connect fails, the pass aborts after ONE
health evaluation — not the claimed two — because the exception escapes the
loop. -/
theorem C3_counterexample :
    servers3bad.length = 2 ∧
    (run_pass env3bad servers3bad).1.evals = 1 ∧
    (run_pass env3bad servers3bad).2 = some (PyErr.sshError "No route to host") :=
  ⟨rfl, by decide, by decide⟩

/-- C4 (amended): run_ssh closes the session only on the fully successful
path.  When connect raises, no session exists and close is not called; when
a later call raises after a successful connect, the established session is
left open — there is no try/finally or with-block. -/
theorem C4_close_only_on_success :
    (∀ (code : Int) (out err2 : String),
      (run_ssh (SshOutcome.ok code out err2)).2 = ⟨true, true⟩) ∧
    (∀ msg, (run_ssh (SshOutcome.execFail msg)).2 = ⟨true, false⟩) ∧
    (∀ msg, (run_ssh (SshOutcome.connectFail msg)).2 = ⟨false, false⟩) :=
  ⟨fun _ _ _ => rfl, fun _ => rfl, fun _ => rfl⟩

/-- C4 counterexample: a command timeout after a successful connect leaves
the session open — connected but never closed — refuting "the session is
never left open". -/
theorem C4_counterexample :
    (run_ssh (SshOutcome.execFail "Command timed out")).2.connected = true ∧
    (run_ssh (SshOutcome.execFail "Command timed out")).2.closed = false :=
  ⟨rfl, rfl⟩

/-- C5 (amended): the remediation command is restart_command verbatim when
present; otherwise "sudo systemctl restart <service>"; and when neither
restart_command nor service is present the synthesized command is
"sudo systemctl restart None" — Python interpolates None as the string
"None", not as an empty service name. -/
theorem C5_restart_command_resolution :
    (∀ (s : ServerDict) (cmd : String), s.restart_command? = some cmd →
      restart_command_of s = cmd) ∧
    (∀ (s : ServerDict) (svc : String), s.restart_command? = none →
      s.service? = some svc →
      restart_command_of s = "sudo systemctl restart " ++ svc) ∧
    (∀ s : ServerDict, s.restart_command? = none → s.service? = none →
      restart_command_of s = "sudo systemctl restart None") := by
  refine ⟨fun s cmd h => ?_, fun s svc h1 h2 => ?_, fun s h1 h2 => ?_⟩
  · simp [restart_command_of, h]
  · simp [restart_command_of, h1, h2, pyStrOpt]
  · simp [restart_command_of, h1, h2, pyStrOpt]

/-- C5 witness: the three resolution cases at concrete servers. -/
theorem C5_witness :
    s5a.restart_command? = some "svc restart nginx" ∧
    restart_command_of s5a = "svc restart nginx" ∧
    s5b.restart_command? = none ∧ s5b.service? = some "nginx" ∧
    restart_command_of s5b = "sudo systemctl restart " ++ "nginx" ∧
    s5c.restart_command? = none ∧ s5c.service? = none ∧
    restart_command_of s5c = "sudo systemctl restart None" :=
  ⟨rfl, C5_restart_command_resolution.1 s5a "svc restart nginx" rfl, rfl, rfl,
   C5_restart_command_resolution.2.1 s5b "nginx" rfl rfl, rfl, rfl,
   C5_restart_command_resolution.2.2 s5c rfl rfl⟩

/-- C5 counterexample: with neither restart_command nor service, the
synthesized command carries the literal service name "None", not an empty
service name. -/
theorem C5_counterexample :
    s5c.restart_command? = none ∧ s5c.service? = none ∧
    restart_command_of s5c = "sudo systemctl restart None" ∧
    restart_command_of s5c ≠ "sudo systemctl restart " :=
  ⟨rfl, rfl, by decide, by decide⟩

/-- C6: for an http check whose GET completes, the verdict is healthy iff
the status equals expected_status (default 200) and, when contains is set,
the body has it as a literal substring, with detail "HTTP <status>"; and
when the GET raises, the verdict is healthy=false with detail
"HTTP error: <cause>". -/
theorem C6_http_verdict (env : Env) (s : ServerDict) (hc : HCDict) (url : String)
    (hhc : s.health_check? = some hc) (ht : hc.type? = some "http")
    (hu : hc.url? = some url) :
    (∀ (status : Nat) (body : String),
      env.httpGet url (hc.timeout?.getD 5) = Except.ok (status, body) →
      health_check env s = Except.ok
        ((status == hc.expected_status?.getD 200 &&
          (match hc.contains? with
           | some c => strIn c body
           | none => true)),
         "HTTP " ++ toString status)) ∧
    (∀ cause : String,
      env.httpGet url (hc.timeout?.getD 5) = Except.error cause →
      health_check env s = Except.ok (false, "HTTP error: " ++ cause)) := by
  constructor
  · intro status body hg
    unfold health_check
    cases hcont : hc.contains? <;> simp [hhc, ht, hu, hg, hcont]
  · intro cause hg
    unfold health_check
    simp [hhc, ht, hu, hg]

/-- C6 witness: a plain 200 response with default expected_status and no
contains yields healthy=true. -/
theorem C6_witness :
    env6.httpGet "http://svc/health" 5 = Except.ok (200, "service ok") ∧
    health_check env6 s6 = Except.ok (true, "HTTP 200") := by
  refine ⟨rfl, ?_⟩
  rw [(C6_http_verdict env6 s6 hc6 "http://svc/health" rfl rfl rfl).1 200 "service ok" rfl]
  decide

/-- C7: for a remote_cmd check whose remote execution returns, the verdict
is healthy iff the exit code is 0 and, when expect_stdout_regex is set, the
pattern is found in stdout (search-anywhere); in particular the modelled
re.search finds "OK" anywhere but the anchored pattern only on an exact
match, so exit 0 with stdout "FAIL" and pattern matching only "OK" yields
healthy=false. -/
theorem C7_remote_cmd_verdict :
    (∀ (env : Env) (s : ServerDict) (hc : HCDict) (cmd : String)
      (code : Int) (out err2 : String),
      s.health_check? = some hc → hc.type? = some "remote_cmd" →
      hc.command? = some cmd → env.ssh s cmd = SshOutcome.ok code out err2 →
      health_check env s = Except.ok
        ((code == 0 &&
          (match hc.expect_stdout_regex? with
           | some pat => env.reSearch pat out
           | none => true)),
         "exit=" ++ toString code ++ ", out=" ++ out ++ ", err=" ++ err2)) ∧
    pySearch "OK" "all OK here" = true ∧
    pySearch "^OK$" "FAIL" = false ∧
    health_check env7 s7 = Except.ok (false, "exit=0, out=FAIL, err=") := by
  refine ⟨?_, by decide, by decide, by decide⟩
  intro env s hc cmd code out err2 hhc ht hcmd hssh
  unfold health_check
  cases hreg : hc.expect_stdout_regex? <;>
    simp [hhc, ht, hcmd, hssh, hreg, run_ssh]

/-- C7 witness: exit 0 with stdout "OK" and the anchored pattern yields
healthy=true through the general verdict equation. -/
theorem C7_witness :
    env7b.ssh s7 "health.sh" = SshOutcome.ok 0 "OK" "" ∧
    health_check env7b s7 = Except.ok (true, "exit=0, out=OK, err=") := by
  refine ⟨rfl, ?_⟩
  rw [C7_remote_cmd_verdict.1 env7b s7 hc7 "health.sh" 0 "OK" "" rfl rfl rfl rfl]
  decide

/-- C8 (amended): a present but unrecognized check type yields healthy=false
with detail "Unknown health_check type"; a missing type key instead raises
KeyError (see the counterexample), so only the unknown-type half of the
claim holds. -/
theorem C8_unknown_type_verdict (env : Env) (s : ServerDict) (hc : HCDict) (t : String)
    (hhc : s.health_check? = some hc) (ht : hc.type? = some t)
    (h1 : t ≠ "http") (h2 : t ≠ "remote_cmd") :
    health_check env s = Except.ok (false, "Unknown health_check type") := by
  unfold health_check
  have hb1 : (t == "http") = false := by simp [h1]
  have hb2 : (t == "remote_cmd") = false := by simp [h2]
  simp [hhc, ht, hb1, hb2]

/-- C8 witness: the unrecognized type "tcp" gets the unknown-type verdict. -/
theorem C8_witness :
    s8tcp.health_check? = some hcTcp ∧ hcTcp.type? = some "tcp" ∧
    health_check envTriv s8tcp = Except.ok (false, "Unknown health_check type") :=
  ⟨rfl, rfl, C8_unknown_type_verdict envTriv s8tcp hcTcp "tcp" rfl rfl
    (by decide) (by decide)⟩

/-- C8 counterexample: a health_check dictionary with NO type key raises
KeyError("type") instead of returning the healthy=false verdict the claim
promises for a missing check-type. -/
theorem C8_counterexample :
    s8bad.health_check? = some hcNoType ∧ hcNoType.type? = none ∧
    health_check envTriv s8bad = Except.error (PyErr.keyError "type") :=
  ⟨rfl, rfl, by decide⟩

/-- C9: notify_discord never fails its caller — it always returns normally;
with the webhook variable unset it makes zero network calls; with it set and
non-empty, both a raising post and a returned response (any status) are
handled internally after the single network call. -/
theorem C9_notify_best_effort :
    (∀ (env : Env) (msg : String), ∃ n, notify_discord env msg = Except.ok n) ∧
    (∀ (env : Env) (msg : String), env.webhook? = none →
      notify_discord env msg = Except.ok 0) ∧
    (∀ (env : Env) (msg : String) (w : String) (cause : String),
      env.webhook? = some w → w ≠ "" → env.post w msg = Except.error cause →
      notify_discord env msg = Except.ok 1) ∧
    (∀ (env : Env) (msg : String) (w : String) (status : Nat),
      env.webhook? = some w → w ≠ "" → env.post w msg = Except.ok status →
      notify_discord env msg = Except.ok 1) := by
  refine ⟨fun env msg => ?_, fun env msg h => ?_, fun env msg w cause hw hne hp => ?_,
    fun env msg w status hw hne hp => ?_⟩
  · unfold notify_discord
    cases env.webhook? with
    | none => exact ⟨0, rfl⟩
    | some w =>
      by_cases hw : (w == "") = true
      · simp [hw]
      · simp only [hw]
        cases notify_try_body (env.post w msg) <;> simp
  · unfold notify_discord
    rw [h]
  · unfold notify_discord
    rw [hw]
    have hb : (w == "") = false := by simp [hne]
    simp only [hb, Bool.false_eq_true, if_false]
    simp [notify_try_body, hp]
  · unfold notify_discord
    rw [hw]
    have hb : (w == "") = false := by simp [hne]
    simp only [hb, Bool.false_eq_true, if_false]
    simp only [notify_try_body, hp]
    by_cases hs : (400 ≤ status && status < 600) = true <;> simp [hs]

/-- C9 witness: with the webhook unset, notify returns normally with zero
network calls. -/
theorem C9_witness :
    envTriv.webhook? = none ∧
    notify_discord envTriv "server down" = Except.ok 0 :=
  ⟨rfl, C9_notify_best_effort.2.1 envTriv "server down" rfl⟩

/-- C10: a config path whose extension is none of .yaml/.yml/.json makes the
run fail with a configuration error before any server is processed — zero
health evaluations, zero remediations, zero notifications. -/
theorem C10_unsupported_extension (env : Env) (path : String)
    (h1 : pathSuffix path ≠ ".yaml") (h2 : pathSuffix path ≠ ".yml")
    (h3 : pathSuffix path ≠ ".json") :
    ∃ e, run_orchestrator env path = (⟨0, 0, 0⟩, some e) ∧
      e.isConfigError = true := by
  unfold run_orchestrator load_config
  cases env.readFile path with
  | none => exact ⟨.fileNotFound path, rfl, rfl⟩
  | some content =>
    have hb1 : (pathSuffix path == ".yaml") = false := by simp [h1]
    have hb2 : (pathSuffix path == ".yml") = false := by simp [h2]
    have hb3 : (pathSuffix path == ".json") = false := by simp [h3]
    simp only [hb1, hb2, hb3, Bool.or_self, Bool.false_eq_true, if_false]
    exact ⟨.valueError "Unsupported config format. Use .yaml, .yml or .json", rfl, rfl⟩

/-- C10 witness: a readable file named servers.toml fails fast with the
unsupported-format error and zero effects. -/
theorem C10_witness :
    pathSuffix "servers.toml" = ".toml" ∧
    ∃ e, run_orchestrator env10 "servers.toml" = (⟨0, 0, 0⟩, some e) ∧
      e.isConfigError = true :=
  ⟨by decide, C10_unsupported_extension env10 "servers.toml"
    (by decide) (by decide) (by decide)⟩

end Orchestrator
